import Mathlib

/-!
Shallow embedding of the mcp_docker_control request-authorization and
audit-logging pipeline, translated from:

  * `server/utils/docker_client.py` — filter policy and container resolution
  * `server/utils/audit_logger.py` — audit entries and the enabled guard
  * `server/tools/{start,stop,restart}_container.py`, `server/tools/restart_stack.py`
  * `server/server.py` — `AuthenticationMiddleware.__call__`

The Docker daemon itself is an external collaborator; it is modelled as a
`Daemon` record holding the container table together with failure oracles
(`restart_fail name = some msg` means the daemon raises with text `msg` when
asked to restart `name`, `none` means the call succeeds).  `json.loads`
together with the subsequent dictionary lookups of the middleware is likewise
an external collaborator, modelled as a `parse` oracle that either yields the
extracted `{method, params.name}` pair or `none` when any exception is raised.
-/

namespace DockerControl

/-- Container runtime status, as reported by the daemon
(`container.status` strings in the Python sources). -/
inductive ContainerStatus where
  | running
  | exited
  | paused
  | created
  | restarting
deriving DecidableEq, Repr

def ContainerStatus.text : ContainerStatus → String
  | .running => "running"
  | .exited => "exited"
  | .paused => "paused"
  | .created => "created"
  | .restarting => "restarting"

/-- A container handle as the tools observe it: name, status and labels
(`container.name`, `container.status`, `container.labels`). -/
structure Container where
  name : String
  status : ContainerStatus
  labels : List (String × String)
deriving DecidableEq, Repr

/-- Label lookup, `container.labels.get(key)` in Python
(`None` when the key is absent). -/
def Container.label (c : Container) (key : String) : Option String :=
  (c.labels.find? (fun kv => kv.1 = key)).map (fun kv => kv.2)

/-- The Docker daemon collaborator: the container table plus failure oracles
for the state-changing calls issued by the tools under verification.
`restart_fail name = some msg` models `container.restart` raising an
exception whose text is `msg`; `none` models success, likewise for
`stop_fail` and `start_fail`. -/
structure Daemon where
  containers : List Container
  restart_fail : String → Option String
  stop_fail : String → Option String
  start_fail : String → Option String

/-- Daemon-side lookup `client.containers.get(name_or_id)`:
`none` models `docker.errors.NotFound`. -/
def daemonGet (d : Daemon) (name_or_id : String) : Option Container :=
  d.containers.find? (fun c => c.name = name_or_id)

/-- Successful `container.start` / `container.stop` / `container.restart`
calls update the daemon-side status of the named container. -/
def Daemon.setStatus (d : Daemon) (nm : String) (s : ContainerStatus) : Daemon :=
  { d with containers :=
      d.containers.map (fun c => if c.name = nm then { c with status := s } else c) }

/-- Filter Policy configuration,
`docker.filter.{whitelist,blacklist}` (each defaults to `[]`). -/
structure FilterConfig where
  whitelist : List String
  blacklist : List String
deriving DecidableEq, Repr

/-- Translation of `is_container_allowed` (docker_client.py:38-63).
Python truthiness of a list is non-emptiness, so `if whitelist:` becomes a
non-emptiness test. -/
def is_container_allowed (cfg : FilterConfig) (container_name : String) : Bool :=
  if cfg.whitelist ≠ [] then cfg.whitelist.contains container_name
  else if cfg.blacklist ≠ [] then ¬ cfg.blacklist.contains container_name
  else true

/-- Outcome of single-container resolution: the Python function either raises
`PermissionError` (policy denied), returns `None` (daemon NotFound), or
returns the container handle. -/
inductive ResolveResult where
  | policyDenied (msg : String)
  | notFound
  | found (c : Container)
deriving DecidableEq, Repr

/-- Translation of `get_container_by_name_or_id` (docker_client.py:107-133):
the filter check precedes every daemon access; `docker.errors.NotFound`
becomes `None`. -/
def get_container_by_name_or_id (cfg : FilterConfig) (d : Daemon)
    (name_or_id : String) : ResolveResult :=
  if ¬ is_container_allowed cfg name_or_id then
    .policyDenied ("Container not allowed by filter: " ++ name_or_id)
  else
    match daemonGet d name_or_id with
    | some c => .found c
    | none => .notFound

/-- Scalar values appearing in audit `details` mappings. -/
inductive JVal where
  | str (s : String)
  | int (i : Int)
  | bool (b : Bool)
deriving DecidableEq, Repr

/-- An audit record as written by `AuditLogger.log_operation`
(audit_logger.py:34-77).  The `timestamp` field of the JSON line is supplied
by the clock collaborator and is not modelled; the remaining fields are. -/
structure AuditEntry where
  operation : String
  container : Option String
  user : String
  success : Bool
  details : Option (List (String × JVal))
  error : Option String
deriving DecidableEq, Repr

/-- The entries appended by one module-level `log_audit` call
(audit_logger.py:100-111).  Its `audit_logger = get_audit_logger()` /
`if audit_logger:` guard consults the module global `_audit_logger`, here
modelled as `Option Bool` carrying the registered logger's `audit_enabled`
flag: with no registered logger the call is a no-op; with a registered but
disabled logger, `log_operation`'s `if not self.audit_enabled: return`
(audit_logger.py:54-55) is likewise a no-op; otherwise exactly one entry is
appended.  (The file-append itself is collaborator I/O assumed to succeed;
its failure is swallowed by `log_operation`.) -/
def log_audit (audit_logger : Option Bool) (e : AuditEntry) : List AuditEntry :=
  match audit_logger with
  | none => []
  | some audit_enabled => if audit_enabled then [e] else []

/-- The value of the module global `_audit_logger` in the program as
composed: `set_audit_logger` (audit_logger.py:89-92) has no caller anywhere
in the source — server.py:179 binds the new `AuditLogger` only to server.py's
own module global (server.py:32) — so no logger is ever registered and every
`log_audit` call from the tool handlers finds `None`. -/
def registered_audit_logger : Option Bool := none

/-- Result of one tool-handler invocation: the returned message, the audit
entries appended during the call, and the daemon state afterwards. -/
structure ToolResult where
  result : String
  audit : List AuditEntry
  daemon : Daemon

/-- The fixed rejection text of the per-call password check shared by
stop_container, restart_container and restart_stack. -/
def invalidPasswordMsg : String :=
  "Error: Invalid or missing password. Authentication required for this operation."

/-- Translation of `stop_container` (tools/stop_container.py:19-77).
`auth_password` is the ambient `AUTH_PASSWORD` environment variable
(`os.getenv('AUTH_PASSWORD', '')`). -/
def stop_container (auth_password : String) (cfg : FilterConfig)
    (audit_logger : Option Bool) (d : Daemon)
    (container_name password : String) (timeout : Int) : ToolResult :=
  if password = "" ∨ password ≠ auth_password then
    { result := invalidPasswordMsg
      audit := log_audit audit_logger
        ⟨"stop_container", some container_name, "system", false, none,
          some "Invalid or missing password"⟩
      daemon := d }
  else if container_name = "" then
    { result := "Error: container_name cannot be empty", audit := [], daemon := d }
  else if timeout < 0 then
    { result := "Error: timeout must be >= 0", audit := [], daemon := d }
  else
    match get_container_by_name_or_id cfg d container_name with
    | .policyDenied msg =>
        { result := "Error: " ++ msg
          audit := log_audit audit_logger
            ⟨"stop", some container_name, "system", false, none, some msg⟩
          daemon := d }
    | .notFound =>
        { result := "Error: Container not found: " ++ container_name
          audit := log_audit audit_logger
            ⟨"stop", some container_name, "system", false, none,
              some "Container not found"⟩
          daemon := d }
    | .found c =>
        if c.status ≠ .running then
          { result := "Container " ++ container_name ++ " is not running (status: "
              ++ c.status.text ++ ")"
            audit := log_audit audit_logger
              ⟨"stop", some container_name, "system", true,
                some [("already_stopped", .bool true)], none⟩
            daemon := d }
        else
          match d.stop_fail c.name with
          | some e =>
              { result := "Error stopping container: " ++ e
                audit := log_audit audit_logger
                  ⟨"stop", some container_name, "system", false, none, some e⟩
                daemon := d }
          | none =>
              { result := "Successfully stopped container: " ++ container_name
                audit := log_audit audit_logger
                  ⟨"stop", some container_name, "system", true,
                    some [("timeout", .int timeout)], none⟩
                daemon := d.setStatus c.name .exited }

/-- Translation of `restart_container` (tools/restart_container.py:19-76),
same shape as `stop_container` but without the already-stopped short-circuit. -/
def restart_container (auth_password : String) (cfg : FilterConfig)
    (audit_logger : Option Bool) (d : Daemon)
    (container_name password : String) (timeout : Int) : ToolResult :=
  if password = "" ∨ password ≠ auth_password then
    { result := invalidPasswordMsg
      audit := log_audit audit_logger
        ⟨"restart_container", some container_name, "system", false, none,
          some "Invalid or missing password"⟩
      daemon := d }
  else if container_name = "" then
    { result := "Error: container_name cannot be empty", audit := [], daemon := d }
  else if timeout < 0 then
    { result := "Error: timeout must be >= 0", audit := [], daemon := d }
  else
    match get_container_by_name_or_id cfg d container_name with
    | .policyDenied msg =>
        { result := "Error: " ++ msg
          audit := log_audit audit_logger
            ⟨"restart", some container_name, "system", false, none, some msg⟩
          daemon := d }
    | .notFound =>
        { result := "Error: Container not found: " ++ container_name
          audit := log_audit audit_logger
            ⟨"restart", some container_name, "system", false, none,
              some "Container not found"⟩
          daemon := d }
    | .found c =>
        match d.restart_fail c.name with
        | some e =>
            { result := "Error restarting container: " ++ e
              audit := log_audit audit_logger
                ⟨"restart", some container_name, "system", false, none, some e⟩
              daemon := d }
        | none =>
            { result := "Successfully restarted container: " ++ container_name
              audit := log_audit audit_logger
                ⟨"restart", some container_name, "system", true,
                  some [("timeout", .int timeout)], none⟩
              daemon := d.setStatus c.name .running }

/-- Translation of `start_container` (tools/start_container.py:16-63).
The handler takes NO `password` argument; `auth_password` is still passed to
the model as the ambient environment so that independence from it can be
stated, but the source never reads it here. -/
def start_container (auth_password : String) (cfg : FilterConfig)
    (audit_logger : Option Bool) (d : Daemon) (container_name : String) : ToolResult :=
  if container_name = "" then
    { result := "Error: container_name cannot be empty", audit := [], daemon := d }
  else
    match get_container_by_name_or_id cfg d container_name with
    | .policyDenied msg =>
        { result := "Error: " ++ msg
          audit := log_audit audit_logger
            ⟨"start", some container_name, "system", false, none, some msg⟩
          daemon := d }
    | .notFound =>
        { result := "Error: Container not found: " ++ container_name
          audit := log_audit audit_logger
            ⟨"start", some container_name, "system", false, none,
              some "Container not found"⟩
          daemon := d }
    | .found c =>
        if c.status = .running then
          { result := "Container " ++ container_name ++ " is already running"
            audit := log_audit audit_logger
              ⟨"start", some container_name, "system", true,
                some [("already_running", .bool true)], none⟩
            daemon := d }
        else
          match d.start_fail c.name with
          | some e =>
              { result := "Error starting container: " ++ e
                audit := log_audit audit_logger
                  ⟨"start", some container_name, "system", false, none, some e⟩
                daemon := d }
          | none =>
              { result := "Successfully started container: " ++ container_name
                audit := log_audit audit_logger
                  ⟨"start", some container_name, "system", true, none, none⟩
                daemon := d.setStatus c.name .running }

/-- Compose project label key used by the stack resolver. -/
def compose_project_key : String := "com.docker.compose.project"

/-- Compose service label key used in the per-member report lines. -/
def compose_service_key : String := "com.docker.compose.service"

/-- The stack-membership computation of restart_stack.py:65-71:
`client.containers.list(all=True)` filtered to the seed's project label. -/
def stack_members (d : Daemon) (proj : String) : List Container :=
  d.containers.filter (fun c => c.label compose_project_key = some proj)

/-- The member loop of restart_stack.py:80-94: every member is attempted in
order; a success appends the member's name to `restarted`, a failure appends
`"name: error"` to `errors`, and iteration continues either way. -/
def restart_members (fail : String → Option String) :
    List Container → List String × List String
  | [] => ([], [])
  | c :: rest =>
    match fail c.name with
    | none =>
        let p := restart_members fail rest
        (c.name :: p.1, p.2)
    | some e =>
        let p := restart_members fail rest
        (p.1, (c.name ++ ": " ++ e) :: p.2)

/-- Daemon state after the member loop: every member whose restart succeeded
is running afterwards. -/
def applyRestarts (d : Daemon) (cs : List Container) : Daemon :=
  { d with containers :=
      d.containers.map (fun c =>
        if cs.any (fun m => m.name = c.name) ∧ (d.restart_fail c.name) = none then
          { c with status := .running }
        else c) }

/-- The `"Restarting {name} (service: {service})... ✅or❌"` report lines
accumulated by the loop of restart_stack.py:83-94. -/
def member_lines (fail : String → Option String) : List Container → String
  | [] => ""
  | c :: rest =>
    "Restarting " ++ c.name ++ " (service: "
      ++ ((c.label compose_service_key).getD "unknown") ++ ")... "
      ++ (match fail c.name with
          | none => "✅ Success\n"
          | some e => "❌ Failed: " ++ e ++ "\n")
      ++ member_lines fail rest

/-- The trailing itemized error list of restart_stack.py:102-105. -/
def error_lines : List String → String
  | [] => ""
  | e :: rest => "  - " ++ e ++ "\n" ++ error_lines rest

/-- The `"=" * 50` separator. -/
def sepBar : String := String.mk (List.replicate 50 '=')

/-- The full human-readable aggregate built by restart_stack.py:77-105. -/
def stack_summary (fail : String → Option String) (proj : String)
    (members : List Container) (restarted errors : List String) : String :=
  "Restarting Docker Compose stack: " ++ proj ++ "\n"
    ++ sepBar ++ "\n\n"
    ++ member_lines fail members
    ++ "\n" ++ sepBar ++ "\n"
    ++ "Summary:\n"
    ++ "  Total containers: " ++ toString members.length ++ "\n"
    ++ "  Successfully restarted: " ++ toString restarted.length ++ "\n"
    ++ "  Errors: " ++ toString errors.length ++ "\n"
    ++ (if errors ≠ [] then "\nErrors:\n" ++ error_lines errors else "")

/-- Translation of `restart_stack` (tools/restart_stack.py:19-126).
The `if not client` branch after `get_docker_client()` is dead in the source
(`get_docker_client` raises rather than returning a falsy client) and is not
modelled; a `PermissionError` from the resolver is caught only by the
function's generic `except Exception` handler. -/
def restart_stack (auth_password : String) (cfg : FilterConfig)
    (audit_logger : Option Bool) (d : Daemon)
    (container_name password : String) (timeout : Int) : ToolResult :=
  if password = "" ∨ password ≠ auth_password then
    { result := invalidPasswordMsg
      audit := log_audit audit_logger
        ⟨"restart_stack", some container_name, "system", false, none,
          some "Invalid or missing password"⟩
      daemon := d }
  else if container_name = "" then
    { result := "Error: container_name cannot be empty", audit := [], daemon := d }
  else
    match get_container_by_name_or_id cfg d container_name with
    | .policyDenied msg =>
        { result := "Error restarting stack: " ++ msg
          audit := log_audit audit_logger
            ⟨"restart_stack", some container_name, "system", false, none, some msg⟩
          daemon := d }
    | .notFound =>
        { result := "Error: Container '" ++ container_name ++ "' not found"
          audit := log_audit audit_logger
            ⟨"restart_stack", some container_name, "system", false, none,
              some "Container not found"⟩
          daemon := d }
    | .found c =>
        match c.label compose_project_key with
        | none =>
            { result := "Error: Container '" ++ container_name
                ++ "' is not part of a Docker Compose stack"
              audit := log_audit audit_logger
                ⟨"restart_stack", some container_name, "system", false, none,
                  some "Not a compose stack"⟩
              daemon := d }
        | some proj =>
            let members := stack_members d proj
            if members = [] then
              { result := "Error: No containers found in stack '" ++ proj ++ "'"
                audit := [], daemon := d }
            else
              let p := restart_members d.restart_fail members
              { result := stack_summary d.restart_fail proj members p.1 p.2
                audit := log_audit audit_logger
                  ⟨"restart_stack", some container_name, "system", p.2.isEmpty,
                    some [("project", .str proj),
                          ("total", .int members.length),
                          ("restarted", .int p.1.length),
                          ("errors", .int p.2.length)], none⟩
                daemon := applyRestarts d members }

/-- The security section of the configuration as extracted by
`AuthenticationMiddleware.__init__` (server.py:41-43), with the `.get`
defaults already applied (`enabled=False`, `password=''`,
`level='full-control'`). -/
structure SecurityConfig where
  auth_enabled : Bool
  password : String
  permission_level : String
deriving DecidableEq, Repr

/-- The read-only tool set of server.py:46-53 (defined by the middleware but
never consulted in `__call__`). -/
def read_only_tools : List String :=
  ["list_containers", "get_container_status", "get_container_logs",
   "get_container_stats", "check_containers_health", "compose_status"]

/-- The control-tool set of server.py:56-63.  Note that `restart_stack`
does NOT appear in it. -/
def control_tools : List String :=
  ["start_container", "stop_container", "restart_container",
   "compose_up", "compose_down", "compose_restart"]

/-- The bearer-token extraction of server.py:80-87: absent header yields the
empty token, a `Bearer `-prefixed value is stripped of the 7-character
prefix, anything else is taken verbatim. -/
def tokenOf : Option String → String
  | none => ""
  | some h => if h.startsWith "Bearer " then h.drop 7 else h

/-- The `{method, params.name}` pair the middleware extracts from a parsed
JSON body: `method = data.get('method')` and
`tool = data.get('params', \x7b\x7d).get('name', '')`. -/
structure ParsedBody where
  method : Option String
  tool : String
deriving DecidableEq, Repr

/-- What the gate does with an inbound HTTP request: either it sends a JSON
error response itself (no forwarding), or it invokes the wrapped application,
handing it the receive channel in the state shown. -/
inductive GateOutcome where
  | respond (status : Nat) (error message : String)
  | forward (channel : List (String × Bool))
deriving DecidableEq, Repr

/-- Gate outcome together with the `logger.error` diagnostics emitted while
handling the request (the only such diagnostic in `__call__` is the
`"Error checking permissions: ..."` line of server.py:132; the exception text
itself is elided). -/
structure GateResult where
  outcome : GateOutcome
  log : List String
deriving DecidableEq, Repr

/-- Starlette's `Request.body()` over an ASGI receive channel modelled as a
queue of `http.request` messages `(body_chunk, more_body)`: chunks are
consumed and concatenated until `more_body` is false; what remains is the
channel state the downstream application would receive.  An exhausted channel
yields the empty body. -/
def readBody : List (String × Bool) → String × List (String × Bool)
  | [] => ("", [])
  | (b, more) :: rest =>
    if more then
      let p := readBody rest
      (b ++ p.1, p.2)
    else (b, rest)

/-- Translation of `AuthenticationMiddleware.__call__` (server.py:67-135) for
HTTP scopes.  `parse` is the `json.loads`-plus-dict-lookup collaborator:
`none` models any exception raised while inspecting the body (caught at
server.py:131, logged, and execution falls through to forwarding).  In the
read-only branch the body is drained from `channel`; every `forward` issued
from inside that branch passes the original — now drained — receive channel,
exactly as server.py:135 passes the original `receive`. -/
def middleware_call (cfg : SecurityConfig) (path : String)
    (auth_header : Option String) (parse : String → Option ParsedBody)
    (channel : List (String × Bool)) : GateResult :=
  if path = "/healthz" ∨ path = "/health/deep" then
    { outcome := .forward channel, log := [] }
  else if cfg.auth_enabled ∧ tokenOf auth_header ≠ cfg.password then
    { outcome := .respond 401 "Unauthorized" "Invalid password", log := [] }
  else if cfg.permission_level = "read-only" then
    let p := readBody channel
    if p.1 ≠ "" then
      match parse p.1 with
      | none =>
          { outcome := .forward p.2, log := ["Error checking permissions"] }
      | some data =>
          if data.method = some "tools/call" ∧ control_tools.contains data.tool then
            { outcome := .respond 403 "Forbidden"
                ("Permission denied: " ++ data.tool
                  ++ " requires full-control access. Current permission level: read-only")
              log := [] }
          else
            { outcome := .forward p.2, log := [] }
    else
      { outcome := .forward p.2, log := [] }
  else
    { outcome := .forward channel, log := [] }

/-! Concrete fixtures used by counterexamples and witnesses. -/

/-- Empty filter configuration (no whitelist, no blacklist). -/
def cfg0 : FilterConfig := ⟨[], []⟩

/-- A failure oracle under which every daemon call succeeds. -/
def noFail : String → Option String := fun _ => none

/-- A one-container daemon with `web` running and no induced failures. -/
def d0 : Daemon := ⟨[⟨"web", .running, []⟩], noFail, noFail, noFail⟩

/-- A one-container daemon with `web` stopped. -/
def dStart : Daemon := ⟨[⟨"web", .exited, []⟩], noFail, noFail, noFail⟩

/-- A security configuration with transport auth off and read-only level. -/
def roCfg : SecurityConfig := ⟨false, "", "read-only"⟩

/-- A parse collaborator reporting a `tools/call` envelope naming tool `t`. -/
def parseTool (t : String) : String → Option ParsedBody :=
  fun _ => some ⟨some "tools/call", t⟩

end DockerControl

namespace DockerControl

/-- C5: with a non-empty whitelist, `is_container_allowed` is exactly
whitelist membership (the blacklist field is universally quantified and hence
irrelevant); with an empty whitelist and non-empty blacklist it is exactly
blacklist non-membership; with both empty it is constantly true.
(docker_client.py:38-63) -/
theorem is_container_allowed_spec (cfg : FilterConfig) (nm : String) :
    (cfg.whitelist ≠ [] →
       (is_container_allowed cfg nm = true ↔ nm ∈ cfg.whitelist)) ∧
    (cfg.whitelist = [] → cfg.blacklist ≠ [] →
       (is_container_allowed cfg nm = true ↔ nm ∉ cfg.blacklist)) ∧
    (cfg.whitelist = [] → cfg.blacklist = [] →
       is_container_allowed cfg nm = true) := by
  refine ⟨fun hw => ?_, fun hw hb => ?_, fun hw hb => ?_⟩
  · simp [is_container_allowed, hw]
  · simp [is_container_allowed, hw, hb]
  · simp [is_container_allowed, hw, hb]

/-- Witness for `is_container_allowed_spec` at concrete configurations. -/
theorem is_container_allowed_spec_witness :
    (is_container_allowed ⟨["web"], ["db"]⟩ "web" = true ↔ "web" ∈ ["web"]) ∧
    (is_container_allowed ⟨[], ["db"]⟩ "db" = true ↔ "db" ∉ ["db"]) ∧
    is_container_allowed ⟨[], []⟩ "anything" = true :=
  ⟨(is_container_allowed_spec ⟨["web"], ["db"]⟩ "web").1 (by decide),
   (is_container_allowed_spec ⟨[], ["db"]⟩ "db").2.1 rfl (by decide),
   (is_container_allowed_spec ⟨[], []⟩ "anything").2.2 rfl rfl⟩

/-- C6: a filter-disallowed identifier resolves to the policy-denied
condition (`PermissionError`) for EVERY daemon state — in particular for
daemons on which the container exists, showing the check precedes the daemon
query — and this outcome is distinct from `notFound`; an allowed identifier
unknown to the daemon resolves to `notFound`, never policy-denied.
(docker_client.py:107-133) -/
theorem resolve_policy_vs_notfound (cfg : FilterConfig) (d : Daemon) (nm : String) :
    (is_container_allowed cfg nm = false →
       get_container_by_name_or_id cfg d nm =
         .policyDenied ("Container not allowed by filter: " ++ nm)) ∧
    (is_container_allowed cfg nm = true → daemonGet d nm = none →
       get_container_by_name_or_id cfg d nm = .notFound) := by
  constructor
  · intro h
    simp [get_container_by_name_or_id, h]
  · intro h hget
    simp [get_container_by_name_or_id, h, hget]

/-- Witness for `resolve_policy_vs_notfound`: with whitelist `["web"]` the
name `db` is policy-denied even though `db` exists on the daemon, and with no
filtering an unknown name is `notFound`. -/
theorem resolve_policy_vs_notfound_witness :
    get_container_by_name_or_id ⟨["web"], ["db"]⟩
        ⟨[⟨"web", .running, []⟩, ⟨"db", .running, []⟩], noFail, noFail, noFail⟩ "db" =
      .policyDenied ("Container not allowed by filter: " ++ "db") ∧
    get_container_by_name_or_id cfg0 d0 "ghost" = .notFound :=
  ⟨(resolve_policy_vs_notfound ⟨["web"], ["db"]⟩
      ⟨[⟨"web", .running, []⟩, ⟨"db", .running, []⟩], noFail, noFail, noFail⟩ "db").1
      (by decide),
   (resolve_policy_vs_notfound cfg0 d0 "ghost").2 (by decide) (by decide)⟩

/-- C1: the gate's control-tool set omits `restart_stack`, so under the
read-only permission level a `tools/call` body naming `restart_stack` is
FORWARDED to the tool layer, while a body naming `stop_container` (a member
of the code's set) is rejected with 403 Forbidden.  This evaluates
`AuthenticationMiddleware.__call__` at the failing input of the claim.
(server.py:56-63, 98-132) -/
theorem restart_stack_passes_readonly_gate :
    (middleware_call roCfg "/mcp" none (parseTool "restart_stack")
        [("body", false)]).outcome = .forward [] ∧
    (middleware_call roCfg "/mcp" none (parseTool "stop_container")
        [("body", false)]).outcome =
      .respond 403 "Forbidden"
        "Permission denied: stop_container requires full-control access. Current permission level: read-only" := by
  constructor <;> rfl

/-- C3: an accepted request is forwarded with the ORIGINAL receive channel,
which the permission inspection has already drained: the gate forwards with
channel `[]`, from which the downstream application can only read the empty
body, not the original non-empty one.  This evaluates the middleware at the
failing input of the claim (read-only level, body naming the read-only tool
`list_containers`). -/
theorem readonly_gate_consumes_accepted_body :
    (middleware_call roCfg "/mcp" none (parseTool "list_containers")
        [("body", false)]).outcome = .forward [] ∧
    readBody [] = ("", []) ∧
    "body" ≠ "" := by
  refine ⟨rfl, rfl, by decide⟩

/-- C8: with transport authentication enabled, on any non-health path a
request whose Authorization header (absent ↦ empty, optional `Bearer ` prefix
stripped) does not equal the configured password is answered 401 and not
forwarded, whatever the body; `/healthz` and `/health/deep` are forwarded
unconditionally with the channel untouched, for every credential or none.
(server.py:72-96) -/
theorem transport_auth_gate (cfg : SecurityConfig) (path : String)
    (hdr : Option String) (parse : String → Option ParsedBody)
    (ch : List (String × Bool)) :
    (path ≠ "/healthz" → path ≠ "/health/deep" → cfg.auth_enabled = true →
       tokenOf hdr ≠ cfg.password →
       middleware_call cfg path hdr parse ch =
         { outcome := .respond 401 "Unauthorized" "Invalid password", log := [] }) ∧
    middleware_call cfg "/healthz" hdr parse ch =
      { outcome := .forward ch, log := [] } ∧
    middleware_call cfg "/health/deep" hdr parse ch =
      { outcome := .forward ch, log := [] } := by
  refine ⟨fun h1 h2 hen htok => ?_, ?_, ?_⟩
  · simp [middleware_call, h1, h2, hen, htok]
  · simp [middleware_call]
  · simp [middleware_call]

/-- Witness for `transport_auth_gate`: an absent header against password
`pw`, and both health paths with the same absent credential. -/
theorem transport_auth_gate_witness :
    middleware_call ⟨true, "pw", "full-control"⟩ "/mcp" none (parseTool "help")
        [("body", false)] =
      { outcome := .respond 401 "Unauthorized" "Invalid password", log := [] } ∧
    middleware_call ⟨true, "pw", "full-control"⟩ "/healthz" none (parseTool "help")
        [("body", false)] =
      { outcome := .forward [("body", false)], log := [] } :=
  ⟨(transport_auth_gate ⟨true, "pw", "full-control"⟩ "/mcp" none (parseTool "help")
      [("body", false)]).1 (by decide) (by decide) rfl (by decide),
   (transport_auth_gate ⟨true, "pw", "full-control"⟩ "/mcp" none (parseTool "help")
      [("body", false)]).2.1⟩

/-- C9: under the read-only permission level, when the body inspection
collaborator raises (`parse = none` — unparseable JSON or any other
exception), the gate logs the failure and forwards the request downstream; it
never rejects on a failed inspection.  (server.py:105-135) -/
theorem permission_parse_fail_open (cfg : SecurityConfig) (path : String)
    (hdr : Option String) (parse : String → Option ParsedBody)
    (ch : List (String × Bool))
    (h1 : path ≠ "/healthz") (h2 : path ≠ "/health/deep")
    (hauth : cfg.auth_enabled = false ∨ tokenOf hdr = cfg.password)
    (hlevel : cfg.permission_level = "read-only")
    (hbody : (readBody ch).1 ≠ "")
    (hparse : parse (readBody ch).1 = none) :
    middleware_call cfg path hdr parse ch =
      { outcome := .forward (readBody ch).2,
        log := ["Error checking permissions"] } := by
  have hset : ¬ (cfg.auth_enabled ∧ tokenOf hdr ≠ cfg.password) := by
    rcases hauth with h | h
    · simp [h]
    · simp [h]
  simp [middleware_call, h1, h2, hset, hlevel, hbody, hparse]

/-- Witness for `permission_parse_fail_open` on a concrete unparseable body. -/
theorem permission_parse_fail_open_witness :
    middleware_call roCfg "/mcp" none (fun _ => none) [("not json", false)] =
      { outcome := .forward [], log := ["Error checking permissions"] } :=
  permission_parse_fail_open roCfg "/mcp" none (fun _ => none)
    [("not json", false)] (by decide) (by decide) (Or.inl rfl) rfl
    (by decide) rfl

/-- Helper: audit-entry count of a `stop_container` invocation over every
branch: one entry on every branch except the invalid-argument early returns
(empty container name or negative timeout, reached only with a valid
password) — provided a logger is registered and enabled (`lg = some true`);
otherwise none ever. -/
theorem stop_container_audit_count (ap : String) (cfg : FilterConfig)
    (lg : Option Bool) (d : Daemon) (nm pw : String) (t : Int) :
    (stop_container ap cfg lg d nm pw t).audit.length =
      if lg = some true then
        (if (pw ≠ "" ∧ pw = ap) ∧ (nm = "" ∨ t < 0) then 0 else 1)
      else 0 := by
  unfold stop_container
  by_cases hpw : pw = "" ∨ pw ≠ ap
  · rw [if_pos hpw]
    rcases hpw with h | h
    · rcases lg with _ | (_ | _) <;> simp [log_audit, h]
    · rcases lg with _ | (_ | _) <;> simp [log_audit, h]
  · rw [if_neg hpw]
    push_neg at hpw
    have hap : ap ≠ "" := hpw.2 ▸ hpw.1
    by_cases hnm : nm = ""
    · rw [if_pos hnm]
      rcases lg with _ | (_ | _) <;> simp [hnm, hpw.1, hpw.2, hap]
    · rw [if_neg hnm]
      by_cases ht : t < 0
      · rw [if_pos ht]
        rcases lg with _ | (_ | _) <;> simp [ht, hpw.1, hpw.2, hap]
      · rw [if_neg ht]
        cases hres : get_container_by_name_or_id cfg d nm with
        | policyDenied msg => rcases lg with _ | (_ | _) <;> simp [log_audit, hnm, ht]
        | notFound => rcases lg with _ | (_ | _) <;> simp [log_audit, hnm, ht]
        | found c =>
          by_cases hst : c.status ≠ ContainerStatus.running
          · rcases lg with _ | (_ | _) <;> simp [log_audit, hnm, ht, hst]
          · push_neg at hst
            cases hfail : d.stop_fail c.name with
            | some e => rcases lg with _ | (_ | _) <;> simp [log_audit, hnm, ht, hst, hfail]
            | none => rcases lg with _ | (_ | _) <;> simp [log_audit, hnm, ht, hst, hfail]


/-- Helper: audit-entry count of a `restart_container` invocation over every
branch. -/
theorem restart_container_audit_count (ap : String) (cfg : FilterConfig)
    (lg : Option Bool) (d : Daemon) (nm pw : String) (t : Int) :
    (restart_container ap cfg lg d nm pw t).audit.length =
      if lg = some true then
        (if (pw ≠ "" ∧ pw = ap) ∧ (nm = "" ∨ t < 0) then 0 else 1)
      else 0 := by
  unfold restart_container
  by_cases hpw : pw = "" ∨ pw ≠ ap
  · rw [if_pos hpw]
    rcases hpw with h | h
    · rcases lg with _ | (_ | _) <;> simp [log_audit, h]
    · rcases lg with _ | (_ | _) <;> simp [log_audit, h]
  · rw [if_neg hpw]
    push_neg at hpw
    have hap : ap ≠ "" := hpw.2 ▸ hpw.1
    by_cases hnm : nm = ""
    · rw [if_pos hnm]
      rcases lg with _ | (_ | _) <;> simp [hnm, hpw.1, hpw.2, hap]
    · rw [if_neg hnm]
      by_cases ht : t < 0
      · rw [if_pos ht]
        rcases lg with _ | (_ | _) <;> simp [ht, hpw.1, hpw.2, hap]
      · rw [if_neg ht]
        cases hres : get_container_by_name_or_id cfg d nm with
        | policyDenied msg => rcases lg with _ | (_ | _) <;> simp [log_audit, hnm, ht]
        | notFound => rcases lg with _ | (_ | _) <;> simp [log_audit, hnm, ht]
        | found c =>
          cases hfail : d.restart_fail c.name with
          | some e => rcases lg with _ | (_ | _) <;> simp [log_audit, hnm, ht, hfail]
          | none => rcases lg with _ | (_ | _) <;> simp [log_audit, hnm, ht, hfail]

/-- Helper: audit-entry count of a `start_container` invocation over every
branch (its only silent early return is the empty container name). -/
theorem start_container_audit_count (ap : String) (cfg : FilterConfig)
    (lg : Option Bool) (d : Daemon) (nm : String) :
    (start_container ap cfg lg d nm).audit.length =
      if lg = some true then (if nm = "" then 0 else 1) else 0 := by
  unfold start_container
  by_cases hnm : nm = ""
  · rw [if_pos hnm]
    rcases lg with _ | (_ | _) <;> simp [hnm]
  · rw [if_neg hnm]
    cases hres : get_container_by_name_or_id cfg d nm with
    | policyDenied msg => rcases lg with _ | (_ | _) <;> simp [log_audit, hnm]
    | notFound => rcases lg with _ | (_ | _) <;> simp [log_audit, hnm]
    | found c =>
      by_cases hst : c.status = ContainerStatus.running
      · rcases lg with _ | (_ | _) <;> simp [log_audit, hnm, hst]
      · cases hfail : d.start_fail c.name with
        | some e => rcases lg with _ | (_ | _) <;> simp [log_audit, hnm, hst, hfail]
        | none => rcases lg with _ | (_ | _) <;> simp [log_audit, hnm, hst, hfail]

/-- Helper: a successful resolution means the daemon lookup found the
container. -/
theorem resolve_found_daemonGet (cfg : FilterConfig) (d : Daemon)
    (nm : String) (c : Container)
    (hres : get_container_by_name_or_id cfg d nm = .found c) :
    daemonGet d nm = some c := by
  unfold get_container_by_name_or_id at hres
  by_cases ha : ¬ is_container_allowed cfg nm
  · rw [if_pos ha] at hres
    cases hres
  · rw [if_neg ha] at hres
    cases hd : daemonGet d nm with
    | none => rw [hd] at hres; cases hres
    | some c2 =>
      rw [hd] at hres
      injection hres with h2
      rw [h2]

/-- Helper: a daemon container carrying the project label makes the stack
member list non-empty. -/
theorem stack_members_ne_nil (d : Daemon) (proj : String) (c : Container)
    (hmem : c ∈ d.containers)
    (hproj : c.label compose_project_key = some proj) :
    ¬ (stack_members d proj = []) := by
  intro h
  have hin : c ∈ stack_members d proj := by
    unfold stack_members
    rw [List.mem_filter]
    exact ⟨hmem, by simp [hproj]⟩
  rw [h] at hin
  cases hin

/-- Helper: audit-entry count of a `restart_stack` invocation over every
branch; the `no containers found in stack` early return is unreachable (the
resolved seed container itself carries the project label), so with a valid
password only the empty-name early return is silent. -/
theorem restart_stack_audit_count (ap : String) (cfg : FilterConfig)
    (lg : Option Bool) (d : Daemon) (nm pw : String) (t : Int) :
    (restart_stack ap cfg lg d nm pw t).audit.length =
      if lg = some true then
        (if (pw ≠ "" ∧ pw = ap) ∧ nm = "" then 0 else 1)
      else 0 := by
  unfold restart_stack
  by_cases hpw : pw = "" ∨ pw ≠ ap
  · rw [if_pos hpw]
    rcases hpw with h | h
    · rcases lg with _ | (_ | _) <;> simp [log_audit, h]
    · rcases lg with _ | (_ | _) <;> simp [log_audit, h]
  · rw [if_neg hpw]
    push_neg at hpw
    have hap : ap ≠ "" := hpw.2 ▸ hpw.1
    by_cases hnm : nm = ""
    · rw [if_pos hnm]
      rcases lg with _ | (_ | _) <;> simp [hnm, hpw.1, hpw.2, hap]
    · rw [if_neg hnm]
      cases hres : get_container_by_name_or_id cfg d nm with
      | policyDenied msg => rcases lg with _ | (_ | _) <;> simp [log_audit, hnm]
      | notFound => rcases lg with _ | (_ | _) <;> simp [log_audit, hnm]
      | found c =>
        cases hproj : c.label compose_project_key with
        | none => rcases lg with _ | (_ | _) <;> simp [log_audit, hnm, hproj]
        | some proj =>
          have hmem : c ∈ d.containers := by
            have hg : d.containers.find? (fun x => x.name = nm) = some c :=
              resolve_found_daemonGet cfg d nm c hres
            exact List.mem_of_find?_eq_some hg
          have hne := stack_members_ne_nil d proj c hmem hproj
          dsimp only
          rw [hproj]
          dsimp only
          rw [if_neg hne]
          rcases lg with _ | (_ | _) <;> simp [log_audit, hnm]

/-- C2: in the program as composed no audit entry is ever appended — the
audit logger is never registered (`set_audit_logger` has no caller in the
source, so the handlers' module-level `log_audit` always finds `None`) —
hence every invocation of the four modelled tool handlers appends zero
entries on every branch, against the claim's "exactly one Audit Entry per
invocation"; and independently, even under a registered and enabled logger
the invalid-argument early return of stop_container.py:38-43 would still
append none.  The last two conjuncts evaluate `stop_container` at those
failing inputs.  (audit_logger.py:86-111, server.py:32,179) -/
theorem tool_handlers_audit_never_appended :
    (∀ (ap : String) (cfg : FilterConfig) (d : Daemon) (nm pw : String)
        (t : Int),
      (stop_container ap cfg registered_audit_logger d nm pw t).audit = [] ∧
      (restart_container ap cfg registered_audit_logger d nm pw t).audit = [] ∧
      (start_container ap cfg registered_audit_logger d nm).audit = [] ∧
      (restart_stack ap cfg registered_audit_logger d nm pw t).audit = []) ∧
    (stop_container "pw" cfg0 registered_audit_logger d0 "web" "bad" 10).audit.length
      = 0 ∧
    (stop_container "pw" cfg0 (some true) d0 "" "pw" 10).audit.length = 0 := by
  refine ⟨fun ap cfg d nm pw t => ⟨?_, ?_, ?_, ?_⟩, by decide, by decide⟩
  · exact List.length_eq_zero.mp (by
      simpa [registered_audit_logger] using
        stop_container_audit_count ap cfg registered_audit_logger d nm pw t)
  · exact List.length_eq_zero.mp (by
      simpa [registered_audit_logger] using
        restart_container_audit_count ap cfg registered_audit_logger d nm pw t)
  · exact List.length_eq_zero.mp (by
      simpa [registered_audit_logger] using
        start_container_audit_count ap cfg registered_audit_logger d nm)
  · exact List.length_eq_zero.mp (by
      simpa [registered_audit_logger] using
        restart_stack_audit_count ap cfg registered_audit_logger d nm pw t)

/-- C4: the per-call password gate evaluated at the claim's failing input
(password `wrong` against secret `secret`): each of `stop_container`,
`restart_container` and `restart_stack` returns the fixed invalid-credentials
message — which does not share the `"Error: Container"` prefix of the
not-found results (stated on the character lists, where the comparison is
kernel-decidable), so the two outcomes are distinguishable — and leaves the
daemon untouched; but the audit logger is never registered
(`set_audit_logger` has no caller), so ZERO failed audit entries are
appended where the claim requires exactly one.  (stop_container.py:30-36,
restart_container.py:31-40, restart_stack.py:32-41, audit_logger.py:86-111,
server.py:32,179) -/
theorem per_call_password_rejected_unaudited :
    (stop_container "secret" cfg0 registered_audit_logger d0
        "web" "wrong" 10).result = invalidPasswordMsg ∧
    (restart_container "secret" cfg0 registered_audit_logger d0
        "web" "wrong" 10).result = invalidPasswordMsg ∧
    (restart_stack "secret" cfg0 registered_audit_logger d0
        "web" "wrong" 10).result = invalidPasswordMsg ∧
    invalidPasswordMsg.data.take 16 ≠ "Error: Container".data ∧
    (stop_container "secret" cfg0 registered_audit_logger d0
        "web" "wrong" 10).daemon = d0 ∧
    (restart_container "secret" cfg0 registered_audit_logger d0
        "web" "wrong" 10).daemon = d0 ∧
    (restart_stack "secret" cfg0 registered_audit_logger d0
        "web" "wrong" 10).daemon = d0 ∧
    (stop_container "secret" cfg0 registered_audit_logger d0
        "web" "wrong" 10).audit = [] ∧
    (restart_container "secret" cfg0 registered_audit_logger d0
        "web" "wrong" 10).audit = [] ∧
    (restart_stack "secret" cfg0 registered_audit_logger d0
        "web" "wrong" 10).audit = [] :=
  ⟨rfl, rfl, rfl, by decide, rfl, rfl, rfl, rfl, rfl, rfl⟩

/-- C10: `start_container` takes no password argument and never reads
`AUTH_PASSWORD`: its behaviour is identical under any two values of the
environment secret; and concretely, with no credential of any kind it moves
a stopped container to running.  (start_container.py:16-63) -/
theorem start_container_ignores_env_password :
    (∀ ap1 ap2 cfg lg d nm,
       start_container ap1 cfg lg d nm =
         start_container ap2 cfg lg d nm) ∧
    (start_container "any" cfg0 registered_audit_logger dStart "web").result =
      "Successfully started container: web" ∧
    (start_container "any" cfg0 registered_audit_logger
        dStart "web").daemon.containers = [⟨"web", .running, []⟩] ∧
    dStart.containers = [⟨"web", .exited, []⟩] := by
  refine ⟨fun ap1 ap2 cfg lg d nm => rfl, by decide, by decide, rfl⟩

/-- Helper: the member loop attempts every member — the success and error
lists together account for the whole member list. -/
theorem restart_members_length (fail : String → Option String)
    (cs : List Container) :
    (restart_members fail cs).1.length + (restart_members fail cs).2.length
      = cs.length := by
  induction cs with
  | nil => rfl
  | cons c rest ih =>
    unfold restart_members
    cases h : fail c.name <;> simp [h] <;> omega

/-- Helper: the error list has one entry per failing member. -/
theorem restart_members_error_count (fail : String → Option String)
    (cs : List Container) :
    (restart_members fail cs).2.length
      = cs.countP (fun c => (fail c.name).isSome) := by
  induction cs with
  | nil => rfl
  | cons c rest ih =>
    unfold restart_members
    cases h : fail c.name <;> simp [h, List.countP_cons, ih]

/-- Helper: each member appears in the success list when its restart
succeeds, and its `"name: error"` line appears in the error list when it
fails — no member is skipped after an earlier failure. -/
theorem restart_members_attempted (fail : String → Option String)
    (cs : List Container) :
    ∀ c ∈ cs,
      (fail c.name = none → c.name ∈ (restart_members fail cs).1) ∧
      (∀ e, fail c.name = some e →
        (c.name ++ ": " ++ e) ∈ (restart_members fail cs).2) := by
  induction cs with
  | nil => intro c hc; cases hc
  | cons a rest ih =>
    intro c hc
    unfold restart_members
    rcases List.mem_cons.mp hc with h | h
    · subst h
      refine ⟨fun hf => ?_, fun e hf => ?_⟩
      · simp [hf]
      · simp [hf]
    · refine ⟨fun hf => ?_, fun e hf => ?_⟩
      · have hm := (ih c h).1 hf
        cases hfa : fail a.name <;> simp [hfa, hm]
      · have hm := (ih c h).2 e hf
        cases hfa : fail a.name <;> simp [hfa, hm]

/-- C7: restarting a stack of N members of which k fail: the error list has
exactly k entries, the success list exactly N - k, every member lands in one
of the two lists (each failed member with its own error text), and — for any
state of the audit wiring `lg` — the call as a whole returns the aggregate
summary and hands those counts to the audit interface instead of failing
because a member failed.  (restart_stack.py:80-120) -/
theorem restart_stack_partial_failure (ap : String) (cfg : FilterConfig)
    (lg : Option Bool)
    (d : Daemon) (nm pw : String) (t : Int) (c : Container) (proj : String)
    (hpw : ¬ (pw = "" ∨ pw ≠ ap)) (hnm : nm ≠ "")
    (hres : get_container_by_name_or_id cfg d nm = .found c)
    (hproj : c.label compose_project_key = some proj) :
    (restart_members d.restart_fail (stack_members d proj)).2.length
      = (stack_members d proj).countP (fun m => (d.restart_fail m.name).isSome) ∧
    (restart_members d.restart_fail (stack_members d proj)).1.length
      = (stack_members d proj).length
        - (stack_members d proj).countP (fun m => (d.restart_fail m.name).isSome) ∧
    (∀ m ∈ stack_members d proj,
      (d.restart_fail m.name = none →
        m.name ∈ (restart_members d.restart_fail (stack_members d proj)).1) ∧
      (∀ e, d.restart_fail m.name = some e →
        (m.name ++ ": " ++ e)
          ∈ (restart_members d.restart_fail (stack_members d proj)).2)) ∧
    restart_stack ap cfg lg d nm pw t =
      { result := stack_summary d.restart_fail proj (stack_members d proj)
          (restart_members d.restart_fail (stack_members d proj)).1
          (restart_members d.restart_fail (stack_members d proj)).2
        audit := log_audit lg ⟨"restart_stack", some nm, "system",
          (restart_members d.restart_fail (stack_members d proj)).2.isEmpty,
          some [("project", .str proj),
                ("total", .int (stack_members d proj).length),
                ("restarted", .int
                  (restart_members d.restart_fail (stack_members d proj)).1.length),
                ("errors", .int
                  (restart_members d.restart_fail (stack_members d proj)).2.length)],
          none⟩
        daemon := applyRestarts d (stack_members d proj) } := by
  have hget : daemonGet d nm = some c := by
    unfold get_container_by_name_or_id at hres
    by_cases ha : ¬ is_container_allowed cfg nm
    · rw [if_pos ha] at hres
      cases hres
    · rw [if_neg ha] at hres
      cases hd : daemonGet d nm with
      | none => rw [hd] at hres; cases hres
      | some c2 =>
        rw [hd] at hres
        injection hres with h2
        rw [h2]
  have hmem : c ∈ d.containers := by
    have hg : d.containers.find? (fun x => x.name = nm) = some c := hget
    exact List.mem_of_find?_eq_some hg
  have hmemb : c ∈ stack_members d proj := by
    unfold stack_members
    rw [List.mem_filter]
    exact ⟨hmem, by simp [hproj]⟩
  have hne : ¬ (stack_members d proj = []) := by
    intro h
    rw [h] at hmemb
    cases hmemb
  refine ⟨restart_members_error_count _ _, ?_,
    restart_members_attempted _ _, ?_⟩
  · have h1 := restart_members_length d.restart_fail (stack_members d proj)
    have h2 := restart_members_error_count d.restart_fail (stack_members d proj)
    omega
  · unfold restart_stack
    rw [if_neg hpw, if_neg hnm, hres]
    dsimp only
    rw [hproj]
    dsimp only
    rw [if_neg hne]

/-- Failure oracle for the witness stack: only `omni2-worker` fails. -/
def stackFail : String → Option String :=
  fun n => if n = "omni2-worker" then some "simulated daemon failure" else none

/-- The running web member of the witness stack. -/
def webC : Container :=
  ⟨"omni2-web", .running,
    [("com.docker.compose.project", "omni2"),
     ("com.docker.compose.service", "web")]⟩

/-- The exited worker member of the witness stack. -/
def workerC : Container :=
  ⟨"omni2-worker", .exited,
    [("com.docker.compose.project", "omni2"),
     ("com.docker.compose.service", "worker")]⟩

/-- A daemon with a two-member `omni2` stack plus an unrelated container;
restarting `omni2-worker` fails. -/
def dStack : Daemon :=
  ⟨[webC, workerC, ⟨"cache", .running, []⟩], stackFail, noFail, noFail⟩

/-- Witness for `restart_stack_partial_failure` on the two-member `omni2`
stack with one failing member: N = 2, k = 1, restarted = 1, and the worker's
error text is reported. -/
theorem restart_stack_partial_failure_witness :
    (stack_members dStack "omni2").length = 2 ∧
    (stack_members dStack "omni2").countP
      (fun m => (dStack.restart_fail m.name).isSome) = 1 ∧
    (restart_members dStack.restart_fail (stack_members dStack "omni2")).1.length
      = (stack_members dStack "omni2").length
        - (stack_members dStack "omni2").countP
            (fun m => (dStack.restart_fail m.name).isSome) ∧
    ("omni2-worker" ++ ": " ++ "simulated daemon failure")
      ∈ (restart_members dStack.restart_fail (stack_members dStack "omni2")).2 :=
  ⟨by decide, by decide,
   (restart_stack_partial_failure "pw" cfg0 registered_audit_logger dStack
       "omni2-web" "pw" 10 webC "omni2"
       (by decide) (by decide) (by decide) (by decide)).2.1,
   ((restart_stack_partial_failure "pw" cfg0 registered_audit_logger dStack
       "omni2-web" "pw" 10 webC "omni2"
       (by decide) (by decide) (by decide) (by decide)).2.2.1 workerC
       (by decide)).2 "simulated daemon failure" (by decide)⟩

end DockerControl
